import Mathlib

/-!
Shallow embedding of the pointshub_api client library.

The source is a Python client for the PointsHub Steam Points HTTP API.
Its core is the resilient request pipeline in
`pointshub_api/client.py` (`PointsHubClient._make_request`): bounded
retry with exponential backoff on transport faults, immediate
classification of HTTP status errors, and a typed error taxonomy
(`pointshub_api/errors.py`).  On top of it sit the thin operation
wrappers in `pointshub_api/methods/steam.py` and the pydantic payload
models in `pointshub_api/models/steam.py`.

The embedding mirrors the Python source: pure functions for the
validators, explicit state passing for the session, and a transport
oracle (one attempt outcome per attempt index) for the network.
Fallible Python code (raised exceptions) becomes `Except`.
-/

namespace PointsHub

/-- A JSON scalar value, enough to model the dictionaries the client
reads and writes (the get of the error field, the dict serialization). -/
inductive JsonValue where
  | str (s : String)
  | num (n : Int)
  deriving DecidableEq, Repr

/-- Python `str(v)` rendering of a JSON value, as used when the client
interpolates the `error` field of the body into an exception message. -/
def JsonValue.pyStr : JsonValue → String
  | .str s => s
  | .num n => toString n

/-- A JSON object: a finite string-keyed mapping, modelled as an
association list. -/
structure JsonObj where
  fields : List (String × JsonValue)
  deriving DecidableEq, Repr

/-- Python `dict.get(key, default)`. -/
def JsonObj.get (j : JsonObj) (key : String) (default : JsonValue) : JsonValue :=
  match j.fields.find? (fun p => p.1 == key) with
  | some p => p.2
  | none => default

/-- The error taxonomy of `pointshub_api/errors.py`: the base
`APIError` plus five leaf kinds, each carrying a message. -/
inductive APIException where
  | APIError (msg : String)
  | APIConnectionError (msg : String)
  | APITimeoutError (msg : String)
  | APIAuthenticationError (msg : String)
  | APIServerError (msg : String)
  | APIClientError (msg : String)
  deriving DecidableEq, Repr

/-- The two transport-fault kinds caught by the
`except (ClientConnectionError, ClientTimeout)` clause of the pipeline: the request
never completed at the HTTP level. -/
inductive TransportFault where
  | ClientConnectionError
  | ClientTimeout
  deriving DecidableEq, Repr

/-- The outcome of one HTTP attempt as seen by `_make_request`: either
a transport-level fault, or a completed response with a status code
and a parsed JSON body (`await response.json()`). -/
inductive AttemptOutcome where
  | fault (e : TransportFault)
  | response (status : Nat) (json : JsonObj)
  deriving DecidableEq, Repr

/-- The request handed to `self.session.request(method, url, json=...)`. -/
structure HttpRequest where
  method : String
  url : String
  json_data : Option JsonObj
  deriving DecidableEq, Repr

/-- A transport oracle: what the network does for a given request on a
given (0-based) attempt index. -/
def Transport : Type := HttpRequest → Nat → AttemptOutcome

/-- Observable outcome of one `_make_request` call: the returned JSON
or the raised exception, together with how many HTTP attempts were
issued and which backoff sleeps were performed, in order. -/
structure RunResult where
  result : Except APIException JsonObj
  attempts : Nat
  sleeps : List Nat
  deriving Repr

/-- Account one more HTTP attempt and one backoff sleep of `w` seconds
in front of the rest of the run (`await asyncio.sleep(wait_time)`
followed by the next loop iteration). -/
def consSleep (w : Nat) (r : RunResult) : RunResult :=
  ⟨r.result, r.attempts + 1, w :: r.sleeps⟩

/-- The `for attempt in range(self._max_retries)` loop of
`PointsHubClient._make_request`, from attempt index `attempt` with
`fuel` loop iterations remaining (`fuel = max_retries - attempt` at
the top-level call).  When the loop runs out of iterations without
returning or raising, the guarded final
`raise APIError("Request failed after all retries.")` fires. -/
def attemptLoop (max_retries : Nat) (issue : Nat → AttemptOutcome) :
    Nat → Nat → RunResult
  | _, 0 =>
    ⟨.error (.APIError "Request failed after all retries."), 0, []⟩
  | attempt, fuel + 1 =>
    match issue attempt with
    | .response status result =>
      if 400 ≤ status then
        if 400 ≤ status ∧ status < 500 then
          ⟨.error (.APIClientError ("Client error: " ++ toString status ++ " "
              ++ (result.get "error" (.str "Unknown error")).pyStr)), 1, []⟩
        else
          ⟨.error (.APIServerError ("Server error: " ++ toString status ++ " "
              ++ (result.get "error" (.str "Unknown error")).pyStr)), 1, []⟩
      else
        ⟨.ok result, 1, []⟩
    | .fault e =>
      if attempt < max_retries - 1 then
        consSleep (1 * 2 ^ attempt)
          (attemptLoop max_retries issue (attempt + 1) fuel)
      else
        ⟨.error
          ((match e with
            | .ClientConnectionError => APIException.APIConnectionError
            | .ClientTimeout => APIException.APITimeoutError)
           ("Request failed after " ++ toString max_retries ++ " attempts.")),
         1, []⟩

/-- Client configuration (`PointsHubClient.__init__`). -/
structure PointsHubClient where
  base_url : String
  api_key : Option String
  max_retries : Nat
  request_timeout : Nat
  deriving DecidableEq, Repr

/-- Method `PointsHubClient._make_request(method, endpoint, json_data)`:
build the URL, then run the retry loop against the transport. -/
def PointsHubClient._make_request (c : PointsHubClient) (transport : Transport)
    (method endpoint : String) (json_data : Option JsonObj) : RunResult :=
  attemptLoop c.max_retries
    (fun attempt => transport ⟨method, c.base_url ++ endpoint, json_data⟩ attempt)
    0 c.max_retries

/-- State of the aiohttp session resource of the client: absent
(`self.session is None`), open, or existing but closed. -/
inductive SessionState where
  | noSession
  | openSession
  | closedSession
  deriving DecidableEq, Repr

/-- Python truthiness of `self.session` (None is falsy). -/
def sessionTruthy : SessionState → Bool
  | .noSession => false
  | _ => true

/-- The `self.session.closed` flag (only consulted when a session
object exists). -/
def sessionClosed : SessionState → Bool
  | .closedSession => true
  | _ => false

/-- Method `PointsHubClient.close()`: release the session when one is open,
otherwise do nothing.  Returns the new session state and whether a
release (`await self.session.close()`) was performed. -/
def PointsHubClient.close (st : SessionState) : SessionState × Bool :=
  if sessionTruthy st && !sessionClosed st then
    (SessionState.noSession, true)
  else
    (st, false)

/-- The `SteamPointsConstants` enum of `pointshub_api/enums/steam.py`. -/
def SteamPointsConstants.MIN_POINTS : Int := 100

/-- Points must be a multiple of this value. -/
def SteamPointsConstants.POINT_MULTIPLE : Int := 100

/-- The `validate_puan_multiple` pydantic validator of `BuyOrder`:
reject values below `MIN_POINTS` and values that are not a multiple of
`POINT_MULTIPLE`; return the value unchanged otherwise. -/
def validate_puan_multiple (v : Int) : Except String Int :=
  if v < SteamPointsConstants.MIN_POINTS then
    .error ("Points must be at least "
      ++ toString SteamPointsConstants.MIN_POINTS)
  else if v % SteamPointsConstants.POINT_MULTIPLE ≠ 0 then
    .error ("Points must be a multiple of "
      ++ toString SteamPointsConstants.POINT_MULTIPLE)
  else
    .ok v

/-- Python `str.startswith(pre)`, computed on the character list. -/
def pyStartswith (s pre : String) : Bool :=
  pre.data.isPrefixOf s.data

/-- Python `len(s)`, the number of characters. -/
def pyLen (s : String) : Nat :=
  s.data.length

/-- Python `str.isdigit()` on the ASCII digit strings this validator
deals with: non-empty and all characters are digits. -/
def pyIsdigit (s : String) : Bool :=
  s.data.length != 0 && s.data.all Char.isDigit

/-- The `validate_steam_link` pydantic validator of `BuyOrder`: accept
any `https://` URL, or a 17-digit string starting with the Steam64
universe marker `7656`; reject everything else. -/
def validate_steam_link (v : String) : Except String String :=
  if pyStartswith v "https://" then
    .ok v
  else if pyStartswith v "7656" && pyLen v == 17 && pyIsdigit v then
    .ok v
  else
    .error ("Steam link must be a URL starting with https:// or a valid "
      ++ "Steam64ID")

/-- The `BuyOrder` pydantic model: fields as stored after validation. -/
structure BuyOrder where
  api_key : String
  puan : Int
  steam_link : String
  deriving DecidableEq, Repr

/-- Construction of a `BuyOrder`: run the field validators; any
validator failure aborts construction with a validation error. -/
def BuyOrder.make (api_key : String) (puan : Int) (steam_link : String) :
    Except String BuyOrder :=
  match validate_puan_multiple puan with
  | .error m => .error m
  | .ok p =>
    match validate_steam_link steam_link with
    | .error m => .error m
    | .ok s => .ok ⟨api_key, p, s⟩

/-- Serialization `order_data.dict()`: the serialized outbound buy payload. -/
def BuyOrder.dict (o : BuyOrder) : JsonObj :=
  ⟨[("api_key", .str o.api_key), ("puan", .num o.puan),
    ("steam_link", .str o.steam_link)]⟩

/-- The `GetBalance` pydantic model (no validators). -/
structure GetBalance where
  api_key : String
  deriving DecidableEq, Repr

/-- Serialization `balance_data.dict()`: the serialized outbound balance payload. -/
def GetBalance.dict (g : GetBalance) : JsonObj :=
  ⟨[("api_key", .str g.api_key)]⟩

/-- An error escaping an operation wrapper: either a typed API error
from the taxonomy, or a caller-misuse precondition failure —
`ValueError` for a missing API key, a pydantic validation error for a
rejected payload field. -/
inductive CallError where
  | api (e : APIException)
  | ValueError (msg : String)
  | ValidationError (msg : String)
  deriving DecidableEq, Repr

/-- Observable outcome of one operation-wrapper call. -/
structure CallResult where
  result : Except CallError JsonObj
  attempts : Nat
  sleeps : List Nat
  deriving Repr

/-- Propagate a pipeline run as an operation outcome (API exceptions
pass through untouched). -/
def liftRun (r : RunResult) : CallResult :=
  ⟨match r.result with
   | .ok j => .ok j
   | .error e => .error (.api e),
   r.attempts, r.sleeps⟩

/-- Python truthiness test `not self._client.api_key`: the key is
missing when unset or the empty string. -/
def apiKeyFalsy : Option String → Bool
  | none => true
  | some s => s == ""

/-- The stored key as the string handed to the payload models. -/
def apiKeyStr : Option String → String
  | none => ""
  | some s => s

namespace SteamMethods

/-- Constant `SteamMethods.BASE_PATH`. -/
def BASE_PATH : String := "/api"

/-- Method `SteamMethods.get_endpoints()`. -/
def get_endpoints : List (String × String) :=
  [("price", BASE_PATH ++ "/price"),
   ("buy", BASE_PATH ++ "/buy"),
   ("balance", BASE_PATH ++ "/balance")]

/-- Dictionary lookup `self.get_endpoints()[key]`. -/
def endpoint (key : String) : String :=
  match get_endpoints.find? (fun p => p.1 == key) with
  | some p => p.2
  | none => ""

/-- Method `SteamMethods.get_price()`: anonymous GET of the price endpoint. -/
def get_price (c : PointsHubClient) (transport : Transport) : CallResult :=
  liftRun (c._make_request transport "GET" (endpoint "price") none)

/-- Method `SteamMethods.buy(puan, steam_link)`: require an API key, validate
the payload, then POST it to the buy endpoint. -/
def buy (c : PointsHubClient) (transport : Transport)
    (puan : Int) (steam_link : String) : CallResult :=
  if apiKeyFalsy c.api_key then
    ⟨.error (.ValueError "API key is required for buy operations"), 0, []⟩
  else
    match BuyOrder.make (apiKeyStr c.api_key) puan steam_link with
    | .error m => ⟨.error (.ValidationError m), 0, []⟩
    | .ok order_data =>
      liftRun (c._make_request transport "POST" (endpoint "buy")
        (some order_data.dict))

/-- Method `SteamMethods.get_balance()`: require an API key, then POST the
balance payload. -/
def get_balance (c : PointsHubClient) (transport : Transport) : CallResult :=
  if apiKeyFalsy c.api_key then
    ⟨.error (.ValueError "API key is required for balance operations"), 0, []⟩
  else
    liftRun (c._make_request transport "POST" (endpoint "balance")
      (some (GetBalance.dict ⟨apiKeyStr c.api_key⟩)))

end SteamMethods

/-- A mock transport that raises a timeout fault on the first two
attempts and returns HTTP 200 with `body` from the third attempt on. -/
def timeoutTwiceTransport (body : JsonObj) : Transport :=
  fun _req attempt =>
    if attempt < 2 then .fault .ClientTimeout else .response 200 body

/-- The exception class chosen when a transport fault survives the
last attempt (`error_class = APIConnectionError if isinstance(e,
ClientConnectionError) else APITimeoutError`). -/
def faultErrorClass : TransportFault → String → APIException
  | .ClientConnectionError => .APIConnectionError
  | .ClientTimeout => .APITimeoutError

/-- When every attempt raises the same transport fault, the loop from
attempt index `attempt` with `fuel` iterations left (`attempt + fuel =
max_retries`) issues `fuel` further attempts, sleeps the exponential
backoff after every attempt but the last, and surfaces the error
class of the fault, stating the attempt budget. -/
theorem attemptLoop_const_fault (max_retries : Nat) (issue : Nat → AttemptOutcome)
    (e : TransportFault) (hf : ∀ i, issue i = .fault e) :
    ∀ fuel attempt, 1 ≤ fuel → attempt + fuel = max_retries →
      attemptLoop max_retries issue attempt fuel =
        ⟨.error (faultErrorClass e
            ("Request failed after " ++ toString max_retries ++ " attempts.")),
         fuel,
         (List.range' attempt (fuel - 1)).map (fun i => 1 * 2 ^ i)⟩ := by
  intro fuel
  induction fuel with
  | zero =>
    intro attempt h1 _
    omega
  | succ f ih =>
    intro attempt _ h2
    rw [attemptLoop, hf attempt]
    dsimp only
    cases f with
    | zero =>
      have hlast : ¬ attempt < max_retries - 1 := by omega
      rw [if_neg hlast]
      cases e <;> simp [faultErrorClass]
    | succ g =>
      have hmore : attempt < max_retries - 1 := by omega
      rw [if_pos hmore, ih (attempt + 1) (by omega) (by omega)]
      simp [consSleep, List.range'_succ]

/-- C1: a timeout-level transport fault is retryable — with a
persistent timeout the pipeline sleeps the exponential backoff between
attempts and finally raises `APITimeoutError` naming the attempt
budget; a transport that times out twice and succeeds on the third
attempt yields the successful body with `max_retries = 3`. -/
theorem c1_timeout_retryable_and_exhaustion (c : PointsHubClient) (t : Transport)
    (method endpoint : String) (jd : Option JsonObj) (body : JsonObj)
    (hmr : 1 ≤ c.max_retries)
    (ht : ∀ req i, t req i = .fault .ClientTimeout) :
    (c._make_request t method endpoint jd).result =
        .error (.APITimeoutError
          ("Request failed after " ++ toString c.max_retries ++ " attempts."))
    ∧ (c._make_request t method endpoint jd).sleeps =
        (List.range (c.max_retries - 1)).map (fun i => 1 * 2 ^ i)
    ∧ ((PointsHubClient.mk c.base_url c.api_key 3 c.request_timeout)._make_request
          (timeoutTwiceTransport body) method endpoint jd).result = .ok body
    ∧ ((PointsHubClient.mk c.base_url c.api_key 3 c.request_timeout)._make_request
          (timeoutTwiceTransport body) method endpoint jd).attempts = 3
    ∧ ((PointsHubClient.mk c.base_url c.api_key 3 c.request_timeout)._make_request
          (timeoutTwiceTransport body) method endpoint jd).sleeps = [1, 2] := by
  have hrun := attemptLoop_const_fault c.max_retries
    (fun attempt => t ⟨method, c.base_url ++ endpoint, jd⟩ attempt)
    .ClientTimeout (fun i => ht _ i) c.max_retries 0 hmr (by omega)
  refine ⟨?_, ?_, ?_, ?_, ?_⟩
  · rw [PointsHubClient._make_request, hrun]
    simp [faultErrorClass]
  · rw [PointsHubClient._make_request, hrun, List.range_eq_range']
  · simp [PointsHubClient._make_request, attemptLoop, timeoutTwiceTransport, consSleep]
  · simp [PointsHubClient._make_request, attemptLoop, timeoutTwiceTransport, consSleep]
  · simp [PointsHubClient._make_request, attemptLoop, timeoutTwiceTransport, consSleep]

/-- Witness for C1 at a concrete client, transport and body. -/
theorem c1_timeout_retryable_and_exhaustion_witness :
    ((PointsHubClient.mk "https://api.buysteampoints.com" none 3 1800)._make_request
        (fun _ _ => .fault .ClientTimeout) "GET" "/api/price" none).result =
      .error (.APITimeoutError
        ("Request failed after " ++ toString (3:Nat) ++ " attempts."))
    ∧ ((PointsHubClient.mk "https://api.buysteampoints.com" none 3 1800)._make_request
        (fun _ _ => .fault .ClientTimeout) "GET" "/api/price" none).sleeps =
      (List.range (3 - 1)).map (fun i => 1 * 2 ^ i)
    ∧ ((PointsHubClient.mk "https://api.buysteampoints.com" none 3 1800)._make_request
        (timeoutTwiceTransport ⟨[("ok", .num 1)]⟩) "GET" "/api/price" none).result =
      .ok ⟨[("ok", .num 1)]⟩
    ∧ ((PointsHubClient.mk "https://api.buysteampoints.com" none 3 1800)._make_request
        (timeoutTwiceTransport ⟨[("ok", .num 1)]⟩) "GET" "/api/price" none).attempts = 3
    ∧ ((PointsHubClient.mk "https://api.buysteampoints.com" none 3 1800)._make_request
        (timeoutTwiceTransport ⟨[("ok", .num 1)]⟩) "GET" "/api/price" none).sleeps = [1, 2] :=
  c1_timeout_retryable_and_exhaustion
    (PointsHubClient.mk "https://api.buysteampoints.com" none 3 1800)
    (fun _ _ => .fault .ClientTimeout) "GET" "/api/price" none ⟨[("ok", .num 1)]⟩
    (by decide) (fun _ _ => rfl)

/-- C2: with a transport that raises a connection fault on every
attempt and `max_retries = 3`, the pipeline issues exactly 3 HTTP
attempts, sleeps 1 second then 2 seconds (never after the last
attempt), and raises `APIConnectionError` mentioning 3 attempts. -/
theorem c2_connection_fault_exhaustion (c : PointsHubClient) (t : Transport)
    (method endpoint : String) (jd : Option JsonObj)
    (hmr : c.max_retries = 3)
    (ht : ∀ req i, t req i = .fault .ClientConnectionError) :
    (c._make_request t method endpoint jd).attempts = 3
    ∧ (c._make_request t method endpoint jd).sleeps = [1 * 2 ^ 0, 1 * 2 ^ 1]
    ∧ (c._make_request t method endpoint jd).result =
        .error (.APIConnectionError "Request failed after 3 attempts.") := by
  have hrun := attemptLoop_const_fault c.max_retries
    (fun attempt => t ⟨method, c.base_url ++ endpoint, jd⟩ attempt)
    .ClientConnectionError (fun i => ht _ i) c.max_retries 0 (by omega) (by omega)
  rw [PointsHubClient._make_request, hrun, hmr]
  refine ⟨rfl, by decide, ?_⟩
  simp only [faultErrorClass]
  rfl

/-- Witness for C2 at a concrete client and transport. -/
theorem c2_connection_fault_exhaustion_witness :
    ((PointsHubClient.mk "https://api.buysteampoints.com" (some "k") 3 1800)._make_request
        (fun _ _ => .fault .ClientConnectionError) "POST" "/api/buy" none).attempts = 3
    ∧ ((PointsHubClient.mk "https://api.buysteampoints.com" (some "k") 3 1800)._make_request
        (fun _ _ => .fault .ClientConnectionError) "POST" "/api/buy" none).sleeps =
      [1 * 2 ^ 0, 1 * 2 ^ 1]
    ∧ ((PointsHubClient.mk "https://api.buysteampoints.com" (some "k") 3 1800)._make_request
        (fun _ _ => .fault .ClientConnectionError) "POST" "/api/buy" none).result =
      .error (.APIConnectionError "Request failed after 3 attempts.") :=
  c2_connection_fault_exhaustion
    (PointsHubClient.mk "https://api.buysteampoints.com" (some "k") 3 1800)
    (fun _ _ => .fault .ClientConnectionError) "POST" "/api/buy" none
    rfl (fun _ _ => rfl)

/-- C3: an HTTP response with status ≥ 400 is terminal on the attempt
that received it — one attempt, no backoff sleep, `APIClientError` for
4xx and `APIServerError` for 5xx, with the status code and the
`error` field of the body (or "Unknown error") in the message; when it is the
first attempt this is the whole `_make_request` outcome. -/
theorem c3_http_error_immediate (c : PointsHubClient) (t : Transport)
    (method endpoint : String) (jd : Option JsonObj)
    (status : Nat) (body : JsonObj) (attempt fuel : Nat)
    (hs : 400 ≤ status)
    (ht : t ⟨method, c.base_url ++ endpoint, jd⟩ attempt = .response status body) :
    attemptLoop c.max_retries
        (fun i => t ⟨method, c.base_url ++ endpoint, jd⟩ i) attempt (fuel + 1) =
      ⟨.error (if status < 500
          then APIException.APIClientError ("Client error: " ++ toString status
            ++ " " ++ (body.get "error" (.str "Unknown error")).pyStr)
          else APIException.APIServerError ("Server error: " ++ toString status
            ++ " " ++ (body.get "error" (.str "Unknown error")).pyStr)), 1, []⟩
    ∧ (attempt = 0 → fuel + 1 = c.max_retries →
        c._make_request t method endpoint jd =
          ⟨.error (if status < 500
              then APIException.APIClientError ("Client error: " ++ toString status
                ++ " " ++ (body.get "error" (.str "Unknown error")).pyStr)
              else APIException.APIServerError ("Server error: " ++ toString status
                ++ " " ++ (body.get "error" (.str "Unknown error")).pyStr)),
           1, []⟩) := by
  have key : ∀ mr, attemptLoop mr
      (fun i => t ⟨method, c.base_url ++ endpoint, jd⟩ i) attempt (fuel + 1) =
      ⟨.error (if status < 500
          then APIException.APIClientError ("Client error: " ++ toString status
            ++ " " ++ (body.get "error" (.str "Unknown error")).pyStr)
          else APIException.APIServerError ("Server error: " ++ toString status
            ++ " " ++ (body.get "error" (.str "Unknown error")).pyStr)), 1, []⟩ := by
    intro mr
    rw [attemptLoop, ht]
    dsimp only
    by_cases h5 : status < 500
    · rw [if_pos hs, if_pos (And.intro hs h5), if_pos h5]
    · rw [if_pos hs, if_neg (fun hc => h5 hc.2), if_neg h5]
  refine ⟨key c.max_retries, ?_⟩
  intro h0 hm
  subst h0
  rw [PointsHubClient._make_request, ← hm]
  exact key (fuel + 1)

/-- Witness for C3: HTTP 500 with an `error` field on the first
attempt of a 3-attempt budget. -/
theorem c3_http_error_immediate_witness :
    attemptLoop (PointsHubClient.mk "https://api.buysteampoints.com" none 3 1800).max_retries
        (fun i => (fun (_ : HttpRequest) (_ : Nat) =>
            AttemptOutcome.response 500 ⟨[("error", .str "boom")]⟩)
          ⟨"GET", "https://api.buysteampoints.com" ++ "/api/price", none⟩ i) 0 (2 + 1) =
      ⟨.error (if 500 < 500
          then APIException.APIClientError ("Client error: " ++ toString 500
            ++ " " ++ ((⟨[("error", .str "boom")]⟩ : JsonObj).get "error" (.str "Unknown error")).pyStr)
          else APIException.APIServerError ("Server error: " ++ toString 500
            ++ " " ++ ((⟨[("error", .str "boom")]⟩ : JsonObj).get "error" (.str "Unknown error")).pyStr)), 1, []⟩
    ∧ ((0 : Nat) = 0 → 2 + 1 = (PointsHubClient.mk "https://api.buysteampoints.com" none 3 1800).max_retries →
        (PointsHubClient.mk "https://api.buysteampoints.com" none 3 1800)._make_request
            (fun _ _ => AttemptOutcome.response 500 ⟨[("error", .str "boom")]⟩)
            "GET" "/api/price" none =
          ⟨.error (if 500 < 500
              then APIException.APIClientError ("Client error: " ++ toString 500
                ++ " " ++ ((⟨[("error", .str "boom")]⟩ : JsonObj).get "error" (.str "Unknown error")).pyStr)
              else APIException.APIServerError ("Server error: " ++ toString 500
                ++ " " ++ ((⟨[("error", .str "boom")]⟩ : JsonObj).get "error" (.str "Unknown error")).pyStr)),
           1, []⟩) :=
  c3_http_error_immediate
    (PointsHubClient.mk "https://api.buysteampoints.com" none 3 1800)
    (fun _ _ => AttemptOutcome.response 500 ⟨[("error", .str "boom")]⟩)
    "GET" "/api/price" none 500 ⟨[("error", .str "boom")]⟩ 0 2
    (by decide) rfl

/-- The generic `APIError` of the guarded final raise never surfaces
from the attempt loop while iterations remain: every iteration ends in
a return or one of the four specific exception classes. -/
theorem attemptLoop_never_generic (max_retries : Nat) (issue : Nat → AttemptOutcome) :
    ∀ fuel attempt, 1 ≤ fuel → attempt + fuel = max_retries → ∀ msg,
      (attemptLoop max_retries issue attempt fuel).result ≠
        .error (.APIError msg) := by
  intro fuel
  induction fuel with
  | zero =>
    intro attempt h1 _
    omega
  | succ f ih =>
    intro attempt _ h2 msg
    cases hi : issue attempt with
    | response status body =>
      rw [attemptLoop, hi]
      dsimp only
      by_cases h4 : 400 ≤ status
      · rw [if_pos h4]
        by_cases h5 : 400 ≤ status ∧ status < 500
        · rw [if_pos h5]
          simp
        · rw [if_neg h5]
          simp
      · rw [if_neg h4]
        simp
    | fault e =>
      rw [attemptLoop, hi]
      dsimp only
      by_cases hlt : attempt < max_retries - 1
      · rw [if_pos hlt]
        have hrest := ih (attempt + 1) (by omega) (by omega) msg
        simpa [consSleep] using hrest
      · rw [if_neg hlt]
        cases e <;> simp

/-- C9: under the invariant `max_retries ≥ 1`, the guarded final
branch raising the generic `APIError "Request failed after all
retries."` is unreachable — `_make_request` always returns or raises
one of the specific typed errors first. -/
theorem c9_generic_guard_unreachable (c : PointsHubClient) (t : Transport)
    (method endpoint : String) (jd : Option JsonObj)
    (hmr : 1 ≤ c.max_retries) :
    ∀ msg, (c._make_request t method endpoint jd).result ≠
      .error (.APIError msg) := by
  intro msg
  rw [PointsHubClient._make_request]
  exact attemptLoop_never_generic c.max_retries _ c.max_retries 0 hmr (by omega) msg

/-- Witness for C9 at a concrete client, transport and message. -/
theorem c9_generic_guard_unreachable_witness :
    ((PointsHubClient.mk "https://api.buysteampoints.com" none 3 1800)._make_request
        (fun _ _ => .fault .ClientConnectionError) "GET" "/api/price" none).result ≠
      .error (.APIError "Request failed after all retries.") :=
  c9_generic_guard_unreachable
    (PointsHubClient.mk "https://api.buysteampoints.com" none 3 1800)
    (fun _ _ => .fault .ClientConnectionError) "GET" "/api/price" none
    (by decide) "Request failed after all retries."

/-- An `Except` value that is no `ok` is an `error`. -/
theorem except_not_ok {α β : Type} (r : Except α β) (h : ∀ b, r ≠ .ok b) :
    ∃ m, r = .error m := by
  cases r with
  | error m => exact ⟨m, rfl⟩
  | ok b => exact absurd rfl (h b)

/-- Characterization of `validate_puan_multiple`: it succeeds exactly
on multiples of 100 that are at least 100, returning the input. -/
theorem validate_puan_multiple_ok_iff (v w : Int) :
    validate_puan_multiple v = .ok w ↔ (100 ≤ v ∧ v % 100 = 0 ∧ w = v) := by
  unfold validate_puan_multiple
  simp only [SteamPointsConstants.MIN_POINTS,
    SteamPointsConstants.POINT_MULTIPLE]
  split_ifs with h1 h2 <;> simp <;> omega

/-- Characterization of `validate_steam_link`: it succeeds exactly on
`https://` links and 17-digit `7656`-prefixed IDs, returning the
input. -/
theorem validate_steam_link_ok_iff (v w : String) :
    validate_steam_link v = .ok w ↔
      ((pyStartswith v "https://" = true
        ∨ (pyStartswith v "7656" = true ∧ pyLen v = 17 ∧ pyIsdigit v = true))
       ∧ w = v) := by
  unfold validate_steam_link
  split_ifs with h3 h4
  · constructor
    · intro h
      injection h with h
      exact ⟨Or.inl h3, h.symm⟩
    · rintro ⟨_, rfl⟩
      rfl
  · constructor
    · intro h
      injection h with h
      refine ⟨Or.inr ?_, h.symm⟩
      rw [Bool.and_eq_true, Bool.and_eq_true] at h4
      exact ⟨h4.1.1, beq_iff_eq.mp h4.1.2, h4.2⟩
    · rintro ⟨_, rfl⟩
      rfl
  · constructor
    · intro h
      simp at h
    · rintro ⟨hd, rfl⟩
      rcases hd with h | h
      · exact absurd h h3
      · refine absurd ?_ h4
        rw [Bool.and_eq_true, Bool.and_eq_true]
        exact ⟨⟨h.1, beq_iff_eq.mpr h.2.1⟩, h.2.2⟩

/-- Full characterization of `BuyOrder` construction: it succeeds
exactly on puan values that clear both puan checks and links that
clear the link check, and the stored record is the raw input. -/
theorem BuyOrder.make_ok_iff (api_key : String) (puan : Int)
    (steam_link : String) (b : BuyOrder) :
    BuyOrder.make api_key puan steam_link = .ok b ↔
      ((100 ≤ puan ∧ puan % 100 = 0)
       ∧ (pyStartswith steam_link "https://" = true
          ∨ (pyStartswith steam_link "7656" = true ∧ pyLen steam_link = 17
             ∧ pyIsdigit steam_link = true))
       ∧ b = ⟨api_key, puan, steam_link⟩) := by
  constructor
  · intro h
    unfold BuyOrder.make at h
    cases hp : validate_puan_multiple puan with
    | error m =>
      rw [hp] at h
      simp at h
    | ok p =>
      rw [hp] at h
      obtain ⟨h1, h2, rfl⟩ := (validate_puan_multiple_ok_iff puan p).mp hp
      cases hl : validate_steam_link steam_link with
      | error m =>
        rw [hl] at h
        simp at h
      | ok s =>
        rw [hl] at h
        obtain ⟨hlk, rfl⟩ := (validate_steam_link_ok_iff steam_link s).mp hl
        refine ⟨⟨h1, h2⟩, hlk, ?_⟩
        injection h with h
        exact h.symm
  · rintro ⟨⟨h1, h2⟩, hlk, rfl⟩
    unfold BuyOrder.make
    rw [(validate_puan_multiple_ok_iff puan puan).mpr ⟨h1, h2, rfl⟩,
        (validate_steam_link_ok_iff steam_link steam_link).mpr ⟨hlk, rfl⟩]

/-- C5: with an accepted steam link, `BuyOrder` construction succeeds
exactly when `puan` is at least 100 and a multiple of 100; every other
integer is rejected with a validation error, not rounded. -/
theorem c5_puan_acceptance (api_key steam_link : String) (puan : Int)
    (hlink : validate_steam_link steam_link = .ok steam_link) :
    ((∃ b, BuyOrder.make api_key puan steam_link = .ok b) ↔
      (100 ≤ puan ∧ puan % 100 = 0))
    ∧ (¬ (100 ≤ puan ∧ puan % 100 = 0) →
        ∃ msg, BuyOrder.make api_key puan steam_link = .error msg) := by
  have hlk := ((validate_steam_link_ok_iff steam_link steam_link).mp hlink).1
  constructor
  · constructor
    · rintro ⟨b, hb⟩
      exact ((BuyOrder.make_ok_iff api_key puan steam_link b).mp hb).1
    · intro hp
      exact ⟨⟨api_key, puan, steam_link⟩,
        (BuyOrder.make_ok_iff api_key puan steam_link _).mpr ⟨hp, hlk, rfl⟩⟩
  · intro hp
    refine except_not_ok _ (fun b hb => ?_)
    exact hp ((BuyOrder.make_ok_iff api_key puan steam_link b).mp hb).1

/-- Witness for C5 with an http link and `puan = 200`. -/
theorem c5_puan_acceptance_witness :
    ((∃ b, BuyOrder.make "k" 200 "https://steamcommunity.com/id/u" = .ok b) ↔
      (100 ≤ (200:Int) ∧ (200:Int) % 100 = 0))
    ∧ (¬ (100 ≤ (200:Int) ∧ (200:Int) % 100 = 0) →
        ∃ msg, BuyOrder.make "k" 200 "https://steamcommunity.com/id/u" = .error msg) :=
  c5_puan_acceptance "k" "https://steamcommunity.com/id/u" 200 rfl

/-- C6: with an accepted puan, `BuyOrder` construction succeeds
exactly when the link starts with `https://`, or is 17 characters of
digits starting with `7656`; every other string is rejected with a
validation error. -/
theorem c6_steam_link_acceptance (api_key : String) (puan : Int)
    (steam_link : String)
    (hpuan : validate_puan_multiple puan = .ok puan) :
    ((∃ b, BuyOrder.make api_key puan steam_link = .ok b) ↔
      (pyStartswith steam_link "https://" = true
       ∨ (pyLen steam_link = 17 ∧ steam_link.data.all Char.isDigit = true
          ∧ pyStartswith steam_link "7656" = true)))
    ∧ (¬ (pyStartswith steam_link "https://" = true
          ∨ (pyLen steam_link = 17 ∧ steam_link.data.all Char.isDigit = true
             ∧ pyStartswith steam_link "7656" = true)) →
        ∃ msg, BuyOrder.make api_key puan steam_link = .error msg) := by
  have hp := (validate_puan_multiple_ok_iff puan puan).mp hpuan
  have hbridge :
      (pyStartswith steam_link "7656" = true ∧ pyLen steam_link = 17
       ∧ pyIsdigit steam_link = true) ↔
      (pyLen steam_link = 17 ∧ steam_link.data.all Char.isDigit = true
       ∧ pyStartswith steam_link "7656" = true) := by
    unfold pyIsdigit pyLen
    constructor
    · rintro ⟨h1, h2, h3⟩
      rw [Bool.and_eq_true] at h3
      exact ⟨h2, h3.2, h1⟩
    · rintro ⟨h2, h3, h1⟩
      refine ⟨h1, h2, ?_⟩
      rw [Bool.and_eq_true]
      refine ⟨?_, h3⟩
      simp [pyLen] at h2
      simp [h2]
  constructor
  · constructor
    · rintro ⟨b, hb⟩
      rcases ((BuyOrder.make_ok_iff api_key puan steam_link b).mp hb).2.1 with h | h
      · exact Or.inl h
      · exact Or.inr (hbridge.mp h)
    · intro hl
      refine ⟨⟨api_key, puan, steam_link⟩,
        (BuyOrder.make_ok_iff api_key puan steam_link _).mpr
          ⟨⟨hp.1, hp.2.1⟩, ?_, rfl⟩⟩
      rcases hl with h | h
      · exact Or.inl h
      · exact Or.inr (hbridge.mpr h)
  · intro hl
    refine except_not_ok _ (fun b hb => ?_)
    rcases ((BuyOrder.make_ok_iff api_key puan steam_link b).mp hb).2.1 with h | h
    · exact hl (Or.inl h)
    · exact hl (Or.inr (hbridge.mp h))

/-- Witness for C6 with `puan = 100` and a Steam64ID link. -/
theorem c6_steam_link_acceptance_witness :
    ((∃ b, BuyOrder.make "k" 100 "76561199123456789" = .ok b) ↔
      (pyStartswith "76561199123456789" "https://" = true
       ∨ (pyLen "76561199123456789" = 17
          ∧ ("76561199123456789".data.all Char.isDigit) = true
          ∧ pyStartswith "76561199123456789" "7656" = true)))
    ∧ (¬ (pyStartswith "76561199123456789" "https://" = true
          ∨ (pyLen "76561199123456789" = 17
             ∧ ("76561199123456789".data.all Char.isDigit) = true
             ∧ pyStartswith "76561199123456789" "7656" = true)) →
        ∃ msg, BuyOrder.make "k" 100 "76561199123456789" = .error msg) :=
  c6_steam_link_acceptance "k" 100 "76561199123456789" rfl

/-- C10: validation is the identity on accepted values — the stored
record and the serialized outbound payload carry the given `puan`
and `steam_link` (and the key) verbatim. -/
theorem c10_validation_identity (api_key : String) (puan : Int)
    (steam_link : String) (b : BuyOrder)
    (h : BuyOrder.make api_key puan steam_link = .ok b) :
    b.api_key = api_key ∧ b.puan = puan ∧ b.steam_link = steam_link
    ∧ b.dict = ⟨[("api_key", .str api_key), ("puan", .num puan),
        ("steam_link", .str steam_link)]⟩ := by
  have hb := ((BuyOrder.make_ok_iff api_key puan steam_link b).mp h).2.2
  subst hb
  exact ⟨rfl, rfl, rfl, rfl⟩

/-- Witness for C10 at a concrete accepted order. -/
theorem c10_validation_identity_witness :
    (BuyOrder.mk "k" 300 "https://x").api_key = "k"
    ∧ (BuyOrder.mk "k" 300 "https://x").puan = 300
    ∧ (BuyOrder.mk "k" 300 "https://x").steam_link = "https://x"
    ∧ (BuyOrder.mk "k" 300 "https://x").dict =
        ⟨[("api_key", .str "k"), ("puan", .num 300),
          ("steam_link", .str "https://x")]⟩ :=
  c10_validation_identity "k" 300 "https://x" (BuyOrder.mk "k" 300 "https://x") rfl

/-- The closed set of outcomes an operation wrapper may produce: a
JSON mapping, a precondition failure (`ValueError` or a pydantic
validation error), or one of the six API taxonomy errors. -/
def okOrTaxonomy (r : Except CallError JsonObj) : Prop :=
  (∃ j, r = .ok j)
  ∨ (∃ m, r = .error (.ValueError m))
  ∨ (∃ m, r = .error (.ValidationError m))
  ∨ (∃ m, r = .error (.api (.APIError m)))
  ∨ (∃ m, r = .error (.api (.APIConnectionError m)))
  ∨ (∃ m, r = .error (.api (.APITimeoutError m)))
  ∨ (∃ m, r = .error (.api (.APIAuthenticationError m)))
  ∨ (∃ m, r = .error (.api (.APIServerError m)))
  ∨ (∃ m, r = .error (.api (.APIClientError m)))

/-- Every wrapper outcome lands in the closed set. -/
theorem okOrTaxonomy_total (r : Except CallError JsonObj) : okOrTaxonomy r := by
  unfold okOrTaxonomy
  rcases r with e | j
  · rcases e with e | m | m
    · rcases e with m | m | m | m | m | m
      · exact Or.inr (Or.inr (Or.inr (Or.inl ⟨m, rfl⟩)))
      · exact Or.inr (Or.inr (Or.inr (Or.inr (Or.inl ⟨m, rfl⟩))))
      · exact Or.inr (Or.inr (Or.inr (Or.inr (Or.inr (Or.inl ⟨m, rfl⟩)))))
      · exact Or.inr (Or.inr (Or.inr (Or.inr (Or.inr (Or.inr (Or.inl ⟨m, rfl⟩))))))
      · exact Or.inr (Or.inr (Or.inr (Or.inr (Or.inr (Or.inr (Or.inr (Or.inl ⟨m, rfl⟩)))))))
      · exact Or.inr (Or.inr (Or.inr (Or.inr (Or.inr (Or.inr (Or.inr (Or.inr ⟨m, rfl⟩)))))))
    · exact Or.inr (Or.inl ⟨m, rfl⟩)
    · exact Or.inr (Or.inr (Or.inl ⟨m, rfl⟩))
  · exact Or.inl ⟨j, rfl⟩

/-- The pipeline phase never produces a precondition failure: an
anonymous `get_price` call can only return JSON or raise an API
taxonomy error. -/
theorem get_price_no_precondition (c : PointsHubClient) (t : Transport) :
    (∀ m, (SteamMethods.get_price c t).result ≠ .error (.ValueError m))
    ∧ (∀ m, (SteamMethods.get_price c t).result ≠ .error (.ValidationError m)) := by
  unfold SteamMethods.get_price liftRun
  rcases (c._make_request t "GET" (SteamMethods.endpoint "price") none).result
    with e | j <;> simp

/-- C4: every operation call either returns a JSON mapping or raises
exactly one error from the closed taxonomy (API errors or a
precondition error) — no other outcome exists; moreover the
no-precondition `get_price` never surfaces a precondition failure. -/
theorem c4_closed_outcomes (c : PointsHubClient) (t : Transport)
    (puan : Int) (steam_link : String) :
    okOrTaxonomy (SteamMethods.get_price c t).result
    ∧ okOrTaxonomy (SteamMethods.buy c t puan steam_link).result
    ∧ okOrTaxonomy (SteamMethods.get_balance c t).result
    ∧ (∀ m, (SteamMethods.get_price c t).result ≠ .error (.ValueError m))
    ∧ (∀ m, (SteamMethods.get_price c t).result ≠ .error (.ValidationError m)) :=
  ⟨okOrTaxonomy_total _, okOrTaxonomy_total _, okOrTaxonomy_total _,
   (get_price_no_precondition c t).1, (get_price_no_precondition c t).2⟩

/-- Returning a 200-response on the first attempt short-circuits the
loop with that JSON and a single attempt. -/
theorem attemptLoop_first_success (max_retries : Nat)
    (issue : Nat → AttemptOutcome) (status : Nat) (body : JsonObj)
    (hst : status < 400) (h0 : issue 0 = .response status body) :
    ∀ fuel, 1 ≤ fuel →
      attemptLoop max_retries issue 0 fuel = ⟨.ok body, 1, []⟩ := by
  intro fuel hf
  cases fuel with
  | zero => omega
  | succ f =>
    rw [attemptLoop, h0]
    dsimp only
    rw [if_neg (by omega)]

/-- C7: with an unset or empty API key, `buy` and `get_balance` raise
the `ValueError` precondition failure before any HTTP attempt (zero
attempts), while `get_price` carries no key requirement — it performs
its GET and returns the body. -/
theorem c7_api_key_precondition (c : PointsHubClient) (t : Transport)
    (puan : Int) (steam_link : String) (body : JsonObj)
    (hkey : c.api_key = none ∨ c.api_key = some "") :
    (SteamMethods.buy c t puan steam_link).attempts = 0
    ∧ (SteamMethods.buy c t puan steam_link).result =
        .error (.ValueError "API key is required for buy operations")
    ∧ (SteamMethods.get_balance c t).attempts = 0
    ∧ (SteamMethods.get_balance c t).result =
        .error (.ValueError "API key is required for balance operations")
    ∧ (1 ≤ c.max_retries →
        (∀ i, t ⟨"GET", c.base_url ++ "/api/price", none⟩ i = .response 200 body) →
        (SteamMethods.get_price c t).result = .ok body
        ∧ (SteamMethods.get_price c t).attempts = 1) := by
  have hfalsy : apiKeyFalsy c.api_key = true := by
    rcases hkey with h | h <;> simp [h, apiKeyFalsy]
  refine ⟨?_, ?_, ?_, ?_, ?_⟩
  · simp [SteamMethods.buy, hfalsy]
  · simp [SteamMethods.buy, hfalsy]
  · simp [SteamMethods.get_balance, hfalsy]
  · simp [SteamMethods.get_balance, hfalsy]
  · intro hmr hresp
    have hrun := attemptLoop_first_success c.max_retries
      (fun i => t ⟨"GET", c.base_url ++ SteamMethods.endpoint "price", none⟩ i)
      200 body (by omega) (hresp 0) c.max_retries hmr
    constructor
    · simp only [SteamMethods.get_price, PointsHubClient._make_request]
      rw [hrun]
      rfl
    · simp only [SteamMethods.get_price, PointsHubClient._make_request]
      rw [hrun]
      rfl

/-- Witness for C7 with a key-less client and a 200-transport. -/
theorem c7_api_key_precondition_witness :
    (SteamMethods.buy (PointsHubClient.mk "https://api.buysteampoints.com" none 3 1800)
        (fun _ _ => .response 200 ⟨[("ok", .num 1)]⟩) 200 "https://x").attempts = 0
    ∧ (SteamMethods.buy (PointsHubClient.mk "https://api.buysteampoints.com" none 3 1800)
        (fun _ _ => .response 200 ⟨[("ok", .num 1)]⟩) 200 "https://x").result =
      .error (.ValueError "API key is required for buy operations")
    ∧ (SteamMethods.get_balance (PointsHubClient.mk "https://api.buysteampoints.com" none 3 1800)
        (fun _ _ => .response 200 ⟨[("ok", .num 1)]⟩)).attempts = 0
    ∧ (SteamMethods.get_balance (PointsHubClient.mk "https://api.buysteampoints.com" none 3 1800)
        (fun _ _ => .response 200 ⟨[("ok", .num 1)]⟩)).result =
      .error (.ValueError "API key is required for balance operations")
    ∧ (1 ≤ (PointsHubClient.mk "https://api.buysteampoints.com" none 3 1800).max_retries →
        (∀ i, (fun (_ : HttpRequest) (_ : Nat) =>
            AttemptOutcome.response 200 (⟨[("ok", .num 1)]⟩ : JsonObj))
          ⟨"GET", "https://api.buysteampoints.com" ++ "/api/price", none⟩ i =
            .response 200 ⟨[("ok", .num 1)]⟩) →
        (SteamMethods.get_price (PointsHubClient.mk "https://api.buysteampoints.com" none 3 1800)
            (fun _ _ => .response 200 ⟨[("ok", .num 1)]⟩)).result = .ok ⟨[("ok", .num 1)]⟩
        ∧ (SteamMethods.get_price (PointsHubClient.mk "https://api.buysteampoints.com" none 3 1800)
            (fun _ _ => .response 200 ⟨[("ok", .num 1)]⟩)).attempts = 1) :=
  c7_api_key_precondition
    (PointsHubClient.mk "https://api.buysteampoints.com" none 3 1800)
    (fun _ _ => .response 200 ⟨[("ok", .num 1)]⟩) 200 "https://x"
    ⟨[("ok", .num 1)]⟩ (Or.inl rfl)

/-- C8: `close()` is idempotent — closing with no session or an
already-closed session is a no-op, and a second `close()` right after
a first one changes nothing and performs no release. -/
theorem c8_close_idempotent (st : SessionState) :
    PointsHubClient.close SessionState.noSession = (SessionState.noSession, false)
    ∧ PointsHubClient.close SessionState.closedSession =
        (SessionState.closedSession, false)
    ∧ (PointsHubClient.close (PointsHubClient.close st).1).1 =
        (PointsHubClient.close st).1
    ∧ (PointsHubClient.close (PointsHubClient.close st).1).2 = false := by
  cases st <;> exact ⟨rfl, rfl, rfl, rfl⟩

end PointsHub
